import Mathlib

/-!
Verification of the plaid-cli token/alias store and link-command logic,
embedded from `src/cmd/plaid-cli/main.go`. The `pkg/plaid_cli` package
(Linker, callback server, `Data.Save`) is not part of the given sources;
where a claim depends on it, the corresponding definition is modelled from
the specification and marked as such in its doc comment.

Go maps are embedded as association lists (`List (String × String)`) with
first-match lookup (`mget`) and in-place update / append insertion (`mset`),
matching `m[k]` and `m[k] = v` semantics (up to iteration order, which is
fixed to insertion order here).
-/

/-- Lookup in an association list: embeds Go's `v, ok := m[k]`. -/
def mget (m : List (String × String)) (k : String) : Option String :=
  match m with
  | [] => none
  | (k', v') :: rest => if k' = k then some v' else mget rest k

/-- Update/insert in an association list: embeds Go's `m[k] = v`
(replaces the value of an existing key, otherwise appends). -/
def mset (m : List (String × String)) (k v : String) : List (String × String) :=
  match m with
  | [] => [(k, v)]
  | (k', v') :: rest => if k' = k then (k, v) :: rest else (k', v') :: mset rest k v

/-- The persisted store of `pkg/plaid_cli` as used by `main.go`:
`data.Tokens` (item ID → access token), `data.Aliases` (alias → item ID),
`data.BackAliases` (item ID → alias). -/
structure Data where
  Tokens : List (String × String)
  Aliases : List (String × String)
  BackAliases : List (String × String)
deriving DecidableEq

/-- `TokenPair` returned by the Linker (`pkg/plaid_cli`):
`{ItemID, AccessToken}`. -/
structure TokenPair where
  ItemID : String
  AccessToken : String
deriving DecidableEq

/-- The empty store: `LoadData` on an absent file yields empty maps. -/
def emptyData : Data := ⟨[], [], []⟩

/-- Modelled from the spec: the on-disk state touched by `Data.Save`
(`pkg/plaid_cli`, not under the given sources). `target` is the store file
content (absent or a fully serialized store; serialization is modelled as
the identity on `Data`), `temp` the temporary file content. -/
structure FS where
  target : Option Data
  temp : Option Data
deriving DecidableEq

/-- Modelled from the spec: first phase of `Save` — serialize the three maps
to a temporary location. The target path is untouched. -/
def saveWriteTemp (d : Data) (fs : FS) : FS :=
  { fs with temp := some d }

/-- Modelled from the spec: second phase of `Save` — atomically replace the
target path with the temporary file (rename). -/
def saveRename (fs : FS) : FS :=
  { target := fs.temp, temp := none }

/-- Modelled from the spec: `Save` writes a temporary file and then renames
it over the target; never truncate-then-write in place. -/
def save (d : Data) (fs : FS) : FS :=
  saveRename (saveWriteTemp d fs)

/-- The successful-path mutation of `aliasCommand.Run` (main.go:131-132):
`data.Aliases[name] = itemID; data.BackAliases[itemID] = name`. -/
def setAliasData (d : Data) (itemID name : String) : Data :=
  { d with Aliases := mset d.Aliases name itemID,
           BackAliases := mset d.BackAliases itemID name }

/-- Outcome of `aliasCommand.Run`: `log.Fatalf` when the item ID has no
access token (main.go:127-129), otherwise the mutated store is saved. -/
inductive AliasResult where
  | fatalUnknownItem (itemID : String)
  | saved (d : Data)
deriving DecidableEq

/-- `aliasCommand.Run` (main.go:123-137) with `args = [itemID, name]`
(cobra `ExactArgs(2)`): checks `data.Tokens[itemID]`, exits fatally if
absent, otherwise sets both alias maps and calls `data.Save()`. -/
def aliasCommandRun (d : Data) (fs : FS) (itemID name : String) :
    AliasResult × FS :=
  match mget d.Tokens itemID with
  | none => (.fatalUnknownItem itemID, fs)
  | some _ =>
    let d' := setAliasData d itemID name
    (.saved d', save d' fs)

/-- The in-memory store transition of one `alias` command invocation:
on an unknown item the process exits fatally with the store unchanged,
otherwise both alias maps are updated (main.go:127-132). Used to describe
states reachable by alias assignments. -/
def stepAlias (d : Data) (itemID name : String) : Data :=
  match mget d.Tokens itemID with
  | none => d
  | some _ => setAliasData d itemID name

/-- The token-persisting step of `linkCommand.Run` (main.go:87):
`data.Tokens[tokenPair.ItemID] = tokenPair.AccessToken`. -/
def linkPersist (d : Data) (p : TokenPair) : Data :=
  { d with Tokens := mset d.Tokens p.ItemID p.AccessToken }

/-- Alias resolution as inlined in `linkCommand.Run` (main.go:77-80) and
`transactionsCommand.Run` (main.go:161-164):
`itemID, ok := data.Aliases[x]; if ok { x = itemID }`. -/
def resolveAlias (d : Data) (s : String) : String :=
  match mget d.Aliases s with
  | some itemID => itemID
  | none => s

/-- cobra's `MaximumNArgs(n)` validator: accepts at most `n` positional
arguments (main.go:67 uses `MaximumNArgs(1)`). -/
def maximumNArgs (n : Nat) (args : List String) : Bool :=
  decide (args.length ≤ n)

/-- Which branch `linkCommand.Run` (main.go:68-85) takes:
`args[0]` on an empty slice is an out-of-bounds panic; a non-empty
argument is alias-resolved and relinked; an empty argument falls to
`linker.Link(port)`. -/
inductive LinkBranch where
  | outOfBounds
  | relinkBranch (itemID : String)
  | linkBranch
deriving DecidableEq

/-- The argument handling of `linkCommand.Run` (main.go:69-85):
`itemOrAlias := args[0]`, then `if len(itemOrAlias) > 0` relink the
alias-resolved item else fresh-link. -/
def linkCommandBranch (d : Data) (args : List String) : LinkBranch :=
  match args.get? 0 with
  | none => .outOfBounds
  | some itemOrAlias =>
    if itemOrAlias.length > 0 then .relinkBranch (resolveAlias d itemOrAlias)
    else .linkBranch

/-- Tagged errors of the Linker and store, from the spec's error kinds
(§7); the Linker itself lives in `pkg/plaid_cli`, outside the given
sources. -/
inductive LinkError where
  | bindFailure
  | handshakeTimeout
  | handshakeRejected
  | exchangeError
  | itemMismatch (expected got : String)
deriving DecidableEq

/-- Outcome of `linkCommand.Run` (main.go:68-92). `panicNilDeref` is the
Go runtime panic from evaluating `tokenPair.ItemID` on a nil pointer;
`panicOutOfBounds` the panic from `args[0]` on an empty slice. -/
inductive RunOutcome where
  | panicOutOfBounds
  | panicNilDeref
  | fatalSaveError
  | success (d : Data) (fs : FS)
deriving DecidableEq

/-- `linkCommand.Run` (main.go:68-92), parametrized by the results of the
external `linker.Link` / `linker.Relink` calls (a Go `(pair, err)` return:
on error the returned `*TokenPair` is nil, per the spec's "no partial
TokenPair is ever returned"). The body assigns `tokenPair, err`, then —
without inspecting `err` — evaluates `tokenPair.ItemID` (main.go:87),
stores the token, and only then checks the (overwritten) `err` from
`data.Save()` (main.go:88-91). -/
def linkCommandRun (d : Data) (fs : FS) (args : List String)
    (linkRes : Except LinkError TokenPair)
    (relinkRes : String → Except LinkError TokenPair)
    (saveOk : Bool) : RunOutcome :=
  match linkCommandBranch d args with
  | .outOfBounds => .panicOutOfBounds
  | .relinkBranch itemID =>
    match relinkRes itemID with
    | .error _ => .panicNilDeref
    | .ok p =>
      if saveOk then .success (linkPersist d p) (save (linkPersist d p) fs)
      else .fatalSaveError
  | .linkBranch =>
    match linkRes with
    | .error _ => .panicNilDeref
    | .ok p =>
      if saveOk then .success (linkPersist d p) (save (linkPersist d p) fs)
      else .fatalSaveError

/-- The map built by `tokensCommand.Run` (main.go:102-109): each token is
keyed by `data.BackAliases[itemID]` when present, else by `itemID`
(iteration in insertion order; Go map iteration order is arbitrary, which
only permutes which colliding entry survives). -/
def tokensResolved (d : Data) : List (String × String) :=
  d.Tokens.foldl
    (fun acc p =>
      match mget d.BackAliases p.1 with
      | some al => mset acc al p.2
      | none => mset acc p.1 p.2)
    []

/-- Modelled from the spec: the single-fire delivery signal of a
`HandshakeSession` (callback server in `pkg/plaid_cli`, not under the
given sources) — holds the first delivered public token, if any. -/
structure HandshakeSession where
  delivered : Option String
deriving DecidableEq

/-- Modelled from the spec: one invocation of the callback server's
receiving path. Only the first delivery is honored; later ones are
discarded without error. -/
def deliver (s : HandshakeSession) (t : String) : HandshakeSession :=
  match s.delivered with
  | some _ => s
  | none => { delivered := some t }

/-- A sequence of invocations of the receiving path, in order. -/
def deliverAll (s : HandshakeSession) (ts : List String) : HandshakeSession :=
  ts.foldl deliver s

/-- Modelled from the spec: `Await` returns the token delivered to the
waiting orchestrator (none if the handshake never completed). -/
def await (s : HandshakeSession) : Option String :=
  s.delivered

/-- A fresh session: nothing delivered yet. -/
def freshSession : HandshakeSession := ⟨none⟩

/-- Modelled from the spec: `Relink(itemID, port)` (`pkg/plaid_cli`, not
under the given sources) — await a public token, exchange it, and require
the returned `TokenPair.ItemID` to equal the requested `itemID`, failing
with `ItemMismatchError` otherwise. Parametrized by the handshake result
and the exchange client. -/
def Relink (itemID : String) (handshake : Except LinkError String)
    (exchange : String → Except LinkError TokenPair) :
    Except LinkError TokenPair :=
  match handshake with
  | .error e => .error e
  | .ok publicToken =>
    match exchange publicToken with
    | .error e => .error e
    | .ok pair =>
      if pair.ItemID = itemID then .ok pair
      else .error (.itemMismatch itemID pair.ItemID)

/-- A store holding one linked item, as left by a successful fresh link
persisting `TokenPair{ItemID: "item-123", AccessToken: "access-sandbox-xyz"}`
(main.go:87). -/
def dW : Data := linkPersist emptyData ⟨"item-123", "access-sandbox-xyz"⟩

/-- `dW` after `alias item-123 checking` (the spec's alias-resolution
scenario). -/
def dC5 : Data := stepAlias dW "item-123" "checking"

/-- `dW` after `alias item-123 a` and then `alias item-123 b`: reached
from `dW` by two successful alias assignments. -/
def dC3 : Data := stepAlias (stepAlias dW "item-123" "a") "item-123" "b"

/-- Two linked items, then `alias id1 a` followed by `alias id2 a`:
reached by two link persists and two successful alias assignments;
afterwards both items carry the back-alias `"a"`. -/
def dC10 : Data :=
  stepAlias
    (stepAlias (linkPersist (linkPersist emptyData ⟨"id1", "tok1"⟩) ⟨"id2", "tok2"⟩)
      "id1" "a")
    "id2" "a"

/-- An on-disk state with no store file and no temporary file. -/
def fsEmpty : FS := ⟨none, none⟩

/-- A linker whose `Relink` fails (e.g. the exchange call is rejected):
the Go call returns `(nil, err)`. -/
def relinkFailMock : String → Except LinkError TokenPair :=
  fun _ => Except.error LinkError.exchangeError

/-- An exchange client returning a pair whose item identifier differs from
the one being relinked. -/
def exchangeMismatchMock : String → Except LinkError TokenPair :=
  fun _ => Except.ok ⟨"item-999", "access-sandbox-xyz"⟩

theorem mget_mset (m : List (String × String)) (k v k₂ : String) :
    mget (mset m k v) k₂ = if k₂ = k then some v else mget m k₂ := by
  induction m with
  | nil =>
    simp only [mset, mget]
    by_cases h : k₂ = k
    · subst h; simp
    · have h' : ¬ k = k₂ := fun hk => h hk.symm
      simp [h, h']
  | cons p rest ih =>
    obtain ⟨k', v'⟩ := p
    simp only [mset]
    by_cases hk : k' = k
    · subst hk
      simp only [if_pos rfl, mget]
      by_cases h2 : k₂ = k'
      · subst h2; simp
      · have h2' : ¬ k' = k₂ := fun hk => h2 hk.symm
        simp [h2, h2']
    · simp only [if_neg hk, mget]
      by_cases h2 : k' = k₂
      · have : ¬ k₂ = k := fun h => hk (h2.trans h)
        simp [h2, this]
      · simp [h2, ih]

theorem string_eq_empty_of_length_eq_zero {s : String} (h : s.length = 0) :
    s = "" := by
  cases s with
  | mk l =>
    cases l with
    | nil => rfl
    | cons c cs => simp [String.length] at h

theorem deliverAll_of_isSome (ts : List String) (s : HandshakeSession)
    (h : s.delivered.isSome = true) : deliverAll s ts = s := by
  induction ts generalizing s with
  | nil => rfl
  | cons t ts ih =>
    obtain ⟨x, hx⟩ := Option.isSome_iff_exists.mp h
    have hd : deliver s t = s := by simp [deliver, hx]
    calc deliverAll s (t :: ts) = deliverAll (deliver s t) ts := rfl
      _ = deliverAll s ts := by rw [hd]
      _ = s := ih s h

/-- C1: with `plaid-cli link item-123` and a failing `Relink` (here an
exchange failure), `linkCommand.Run` does not surface the linker's error:
it ignores `err` and dereferences the nil `tokenPair` at main.go:87,
producing a runtime panic instead of the tagged error the spec requires,
and it would have persisted the pair had one been returned. -/
theorem C1_linker_error_dereferenced :
    linkCommandRun dW fsEmpty ["item-123"]
      (Except.error LinkError.exchangeError) relinkFailMock true =
    RunOutcome.panicNilDeref := rfl

/-- C2: `aliasCommand.Run` requires the item ID to hold an access token:
on an unknown item it exits fatally leaving the store (memory and disk)
unchanged; on a known item it sets `Aliases[name] = itemID` and
`BackAliases[itemID] = name`, keeps `Tokens` unchanged, and saves the
mutated store to disk. -/
theorem C2_alias_requires_known_item (d : Data) (fs : FS)
    (itemID name : String) :
    (mget d.Tokens itemID = none →
      aliasCommandRun d fs itemID name =
        (AliasResult.fatalUnknownItem itemID, fs)) ∧
    ((mget d.Tokens itemID).isSome = true →
      aliasCommandRun d fs itemID name =
        (AliasResult.saved (setAliasData d itemID name),
         save (setAliasData d itemID name) fs) ∧
      mget (setAliasData d itemID name).Aliases name = some itemID ∧
      mget (setAliasData d itemID name).BackAliases itemID = some name ∧
      (setAliasData d itemID name).Tokens = d.Tokens ∧
      (save (setAliasData d itemID name) fs).target =
        some (setAliasData d itemID name)) := by
  constructor
  · intro h
    simp [aliasCommandRun, h]
  · intro h
    obtain ⟨tok, htok⟩ := Option.isSome_iff_exists.mp h
    refine ⟨by simp [aliasCommandRun, htok], ?_, ?_, rfl, rfl⟩
    · simp [setAliasData, mget_mset]
    · simp [setAliasData, mget_mset]

/-- C2 witness: on the one-item store `dW`, `alias item-123 checking`
succeeds and establishes both map entries. -/
theorem C2_witness :
    mget (setAliasData dW "item-123" "checking").Aliases "checking" =
      some "item-123" ∧
    mget (setAliasData dW "item-123" "checking").BackAliases "item-123" =
      some "checking" := by
  have h := (C2_alias_requires_known_item dW fsEmpty "item-123" "checking").2
    (by decide)
  exact ⟨h.2.1, h.2.2.1⟩

/-- C3 counterexample: the bidirectional invariant is violated in a state
reachable by alias assignments. `dC3` is reached from the one-item store
`dW` by the assignments `alias item-123 a` then `alias item-123 b`; there
`Aliases["a"] = "item-123"` yet `BackAliases["item-123"] = "b" ≠ "a"`. -/
theorem C3_counterexample :
    mget dC3.Aliases "a" = some "item-123" ∧
    mget dC3.BackAliases "item-123" ≠ some "a" := by decide

/-- C3 (amended): every successful alias assignment establishes the
invariant at the assigned pair — `Aliases[name] = itemID` and
`BackAliases[itemID] = name` — though reassignment leaves older forward
entries dangling, so the global invariant does not hold in all reachable
states. -/
theorem C3_alias_pair_established (d : Data) (itemID name tok : String)
    (h : mget d.Tokens itemID = some tok) :
    mget (stepAlias d itemID name).Aliases name = some itemID ∧
    mget (stepAlias d itemID name).BackAliases itemID = some name := by
  simp [stepAlias, h, setAliasData, mget_mset]

/-- C3 witness: the amended statement at the concrete store `dW`. -/
theorem C3_witness :
    mget (stepAlias dW "item-123" "savings").Aliases "savings" =
      some "item-123" ∧
    mget (stepAlias dW "item-123" "savings").BackAliases "item-123" =
      some "savings" :=
  C3_alias_pair_established dW "item-123" "savings" "access-sandbox-xyz"
    (by decide)

/-- C4: assigning a new alias `b` to an item `id` that already has alias
`a` leaves `Aliases[a] = id` dangling, sets `Aliases[b] = id` and
`BackAliases[id] = b`, and changes nothing else: `Tokens` is untouched,
`Aliases` is unchanged at every key other than `b`, and `BackAliases` is
unchanged at every key other than `id`. -/
theorem C4_dangling_forward_alias (d : Data) (a b id tok : String)
    (ha : mget d.Aliases a = some id)
    (ht : mget d.Tokens id = some tok) :
    mget (stepAlias d id b).Aliases a = some id ∧
    mget (stepAlias d id b).Aliases b = some id ∧
    mget (stepAlias d id b).BackAliases id = some b ∧
    (stepAlias d id b).Tokens = d.Tokens ∧
    (∀ x, x ≠ b → mget (stepAlias d id b).Aliases x = mget d.Aliases x) ∧
    (∀ y, y ≠ id → mget (stepAlias d id b).BackAliases y =
      mget d.BackAliases y) := by
  have hstep : stepAlias d id b = setAliasData d id b := by
    simp [stepAlias, ht]
  rw [hstep]
  refine ⟨?_, ?_, ?_, rfl, ?_, ?_⟩
  · show mget (mset d.Aliases b id) a = some id
    rw [mget_mset]
    by_cases hab : a = b
    · simp [hab]
    · simp [hab, ha]
  · show mget (mset d.Aliases b id) b = some id
    rw [mget_mset]
    simp
  · show mget (mset d.BackAliases id b) id = some b
    rw [mget_mset]
    simp
  · intro x hx
    show mget (mset d.Aliases b id) x = mget d.Aliases x
    rw [mget_mset]
    simp [hx]
  · intro y hy
    show mget (mset d.BackAliases id b) y = mget d.BackAliases y
    rw [mget_mset]
    simp [hy]

/-- C4 witness: on `dC5` (where `"checking"` aliases `"item-123"`),
assigning the new alias `"savings"` keeps `Aliases["checking"]` dangling
at `"item-123"` while `BackAliases["item-123"]` moves to `"savings"`. -/
theorem C4_witness :
    mget (stepAlias dC5 "item-123" "savings").Aliases "checking" =
      some "item-123" ∧
    mget (stepAlias dC5 "item-123" "savings").Aliases "savings" =
      some "item-123" ∧
    mget (stepAlias dC5 "item-123" "savings").BackAliases "item-123" =
      some "savings" := by
  have h := C4_dangling_forward_alias dC5 "checking" "savings" "item-123"
    "access-sandbox-xyz" (by decide) (by decide)
  exact ⟨h.1, h.2.1, h.2.2.1⟩

/-- C5: alias resolution never errors and is the identity on unknown
names — a known alias maps to its item ID, anything else passes through
unchanged — and on `dC5` (after `SetAlias("checking", "item-123")`):
`ResolveAlias("checking") = "item-123"`,
`ResolveAlias("item-123") = "item-123"`, and
`ResolveAlias("unknown-alias") = "unknown-alias"`. -/
theorem C5_resolve_identity_on_unknown (d : Data) (s id : String) :
    (mget d.Aliases s = some id → resolveAlias d s = id) ∧
    (mget d.Aliases s = none → resolveAlias d s = s) ∧
    resolveAlias dC5 "checking" = "item-123" ∧
    resolveAlias dC5 "item-123" = "item-123" ∧
    resolveAlias dC5 "unknown-alias" = "unknown-alias" :=
  ⟨fun h => by simp [resolveAlias, h],
   fun h => by simp [resolveAlias, h],
   rfl, rfl, rfl⟩

/-- C5 witness: the general clause applied at the concrete store `dC5`. -/
theorem C5_witness : resolveAlias dC5 "checking" = "item-123" :=
  (C5_resolve_identity_on_unknown dC5 "checking" "item-123").1 (by decide)

/-- C6: every successful `Relink(itemID, ...)` returns a pair whose
`ItemID` equals the requested `itemID`; if the exchange produces a pair
with a different item identifier, `Relink` fails with
`ItemMismatchError` and never returns the mismatched pair. -/
theorem C6_relink_item_identity (itemID : String)
    (handshake : Except LinkError String)
    (exchange : String → Except LinkError TokenPair) :
    (∀ pair, Relink itemID handshake exchange = Except.ok pair →
      pair.ItemID = itemID) ∧
    (∀ pt pair, handshake = Except.ok pt → exchange pt = Except.ok pair →
      pair.ItemID ≠ itemID →
      Relink itemID handshake exchange =
        Except.error (LinkError.itemMismatch itemID pair.ItemID)) := by
  constructor
  · intro pair h
    cases handshake with
    | error e => simp [Relink] at h
    | ok pt =>
      cases he : exchange pt with
      | error e => simp [Relink, he] at h
      | ok p =>
        simp only [Relink, he] at h
        by_cases hid : p.ItemID = itemID
        · rw [if_pos hid] at h
          injection h with h'
          rw [← h']
          exact hid
        · rw [if_neg hid] at h
          simp at h
  · intro pt pair hh he hne
    simp [Relink, hh, he, hne]

/-- C6 witness: a mocked exchange answering `"item-999"` to a relink of
`"item-123"` makes `Relink` fail with the mismatch error. -/
theorem C6_witness :
    Relink "item-123" (Except.ok "public-sandbox-abc") exchangeMismatchMock =
      Except.error (LinkError.itemMismatch "item-123" "item-999") :=
  (C6_relink_item_identity "item-123" (Except.ok "public-sandbox-abc")
      exchangeMismatchMock).2
    "public-sandbox-abc" ⟨"item-999", "access-sandbox-xyz"⟩ rfl rfl (by decide)

/-- C7: `Save` is crash-atomic — after the temporary file is written but
before the rename, the target file is byte-for-byte unchanged; after the
rename completes, the target holds exactly the newly serialized store. -/
theorem C7_save_crash_atomic (d : Data) (fs : FS) :
    (saveWriteTemp d fs).target = fs.target ∧
    (save d fs).target = some d :=
  ⟨rfl, rfl⟩

/-- C8: for every sequence of invocations of the receiving path on a
fresh session, `Await` observes exactly the first delivered token, and a
delivery to an already-delivered session is a no-op (discarded without
error, outcome unchanged). -/
theorem C8_at_most_one_delivery (t : String) (ts : List String) :
    await (deliverAll freshSession (t :: ts)) = some t ∧
    (∀ s u, (HandshakeSession.delivered s).isSome = true →
      deliver s u = s) := by
  constructor
  · have h1 : deliverAll freshSession (t :: ts) =
        deliverAll ⟨some t⟩ ts := rfl
    rw [h1, deliverAll_of_isSome ts ⟨some t⟩ rfl]
    rfl
  · intro s u h
    obtain ⟨x, hx⟩ := Option.isSome_iff_exists.mp h
    simp [deliver, hx]

/-- C8 witness: two rapid successive deliveries; only the first token
reaches `Await`, and the second delivery leaves the session unchanged. -/
theorem C8_witness :
    await (deliverAll freshSession ["tokA", "tokB"]) = some "tokA" ∧
    deliver ⟨some "tokA"⟩ "tokB" = ⟨some "tokA"⟩ := by
  have h := C8_at_most_one_delivery "tokA" ["tokB"]
  exact ⟨h.1, h.2 ⟨some "tokA"⟩ "tokB" rfl⟩

/-- C9 counterexample: the fresh-link branch is reachable without any
out-of-bounds access — the single explicit empty-string argument is
accepted by `MaximumNArgs(1)` and reaches `linker.Link(port)`. -/
theorem C9_counterexample :
    maximumNArgs 1 [""] = true ∧
    linkCommandBranch emptyData [""] = LinkBranch.linkBranch := by decide

/-- C9 (amended): under `MaximumNArgs(1)`, invoking the link command with
zero positional arguments evaluates `args[0]` on an empty slice — an
out-of-bounds access — so the fresh-link branch is unreachable with zero
arguments; it is reached only by passing an explicit empty-string
argument. -/
theorem C9_zero_args_out_of_bounds (d : Data) (args : List String)
    (h : maximumNArgs 1 args = true) :
    (args = [] → linkCommandBranch d args = LinkBranch.outOfBounds) ∧
    (linkCommandBranch d args = LinkBranch.linkBranch → args = [""]) := by
  constructor
  · intro ha
    subst ha
    rfl
  · intro hb
    match args, h, hb with
    | [], h, hb => cases hb
    | a :: rest, h, hb =>
      have hr : rest = [] := by
        cases rest with
        | nil => rfl
        | cons b bs => simp [maximumNArgs] at h
      subst hr
      by_cases hl : a.length > 0
      · simp [linkCommandBranch, hl] at hb
      · have h0 : a.length = 0 := Nat.eq_zero_of_not_pos hl
        rw [string_eq_empty_of_length_eq_zero h0]

/-- C9 witness: the amended statement at zero arguments. -/
theorem C9_witness :
    linkCommandBranch emptyData [] = LinkBranch.outOfBounds :=
  (C9_zero_args_out_of_bounds emptyData [] (by decide)).1 rfl

/-- C10: in the reachable store `dC10`, the two distinct items `"id1"` and
`"id2"` share the back-alias `"a"`, so the map printed by the tokens
command has strictly fewer entries than `Tokens` and silently omits the
access token `"tok1"`. -/
theorem C10_tokens_print_collapses :
    dC10.Tokens.length = 2 ∧
    (tokensResolved dC10).length = 1 ∧
    (tokensResolved dC10).length < dC10.Tokens.length ∧
    mget dC10.Tokens "id1" = some "tok1" ∧
    mget dC10.BackAliases "id1" = some "a" ∧
    mget dC10.BackAliases "id2" = some "a" ∧
    ("id1" : String) ≠ "id2" ∧
    (tokensResolved dC10).map Prod.snd = ["tok2"] := by decide
